import Mathlib

/-!
Verification development for the redis-puml-miniapp event pipeline.

The implementation under scrutiny is the reference implementation contained in
src/GAMEPLAN-TECHNICAL-REFERENCE.md:
  * the `followup:create` Socket.IO handler (lines 208-282) together with the
    rate-limiting / deduplication snippet inserted "after validation"
    (lines 350-372);
  * the `request:replay` handler (lines 285-310);
  * the participant-side speech scheduler `speak` / `processQueue`
    (lines 583-615 of the participant App.tsx listing);
  * the shared wire types (packages/shared/src/types.ts).

Modelling conventions:
  * Redis stream ids are strictly increasing opaque values; we model the id
    generator as a single `nextId : Nat` counter shared by both streams
    (Redis ids are time-based and strictly increasing per stream).
  * Redis keys `rate:{socket.id}` and `dedup:{hash}` live in disjoint key
    namespaces; we model them as two separate finite maps, keyed directly by
    the socket id, resp. by the item list.  The code's dedupe key is
    base64(JSON.stringify(items)), an injective function of the item list, so
    keying the map by the item list itself identifies exactly the same keys.
  * Key expiry is lazy, as in Redis: a key with expiry `exp` is live at time
    `now` iff `now < exp`; an expired key behaves as absent.
  * JavaScript string `.length` on the ASCII payloads involved coincides with
    `String.length`.
  * The OpenAI call and store availability are oracles in an `Env` record: a
    `transformResult` of `none` models a backend error/timeout (the `catch`
    block runs), `logOk = false` models an unreachable stream store (the
    first `xAdd` throws and the `catch` block runs).
-/

namespace Miniapp

/-- One entry of the `questions:stream` Redis stream: the code stores
`{text, createdAt}` and the stream assigns the id. -/
structure Entry where
  id : Nat
  text : String
  createdAt : Nat
deriving DecidableEq

/-- One entry of the `followups:stream` Redis stream: the code stores
`{items, createdAt, socketId}`. -/
structure FollowupRec where
  id : Nat
  items : List String
  createdAt : Nat
  socketId : String
deriving DecidableEq

/-- Server-side shared state: the two append-only streams, the id generator,
and the rate / dedupe key spaces. -/
structure ServerState where
  followups : List FollowupRec
  questions : List Entry
  nextId : Nat
  rate : String → Option (Nat × Nat)
  dedupe : List String → Option Nat

/-- Initial state: empty streams, no rate counters, no dedupe marks.  Ids
start at 1 so that the XREAD start id `0` is below every entry id. -/
def initState : ServerState :=
  { followups := [], questions := [], nextId := 1,
    rate := fun _ => none, dedupe := fun _ => none }

/-- Where an `agent:questions` (or pub/sub) message is sent: `socket.emit`
reaches the requester only, `app.io.emit` reaches everyone, `redis.publish`
goes to the `questions:live` pub/sub channel. -/
inductive Target where
  | requester
  | everyone
  | pubsub
deriving DecidableEq

/-- A message sent by the server: the payload of `agent:questions` (or of the
pub/sub publish), carrying an optional stream id. -/
structure Emitted where
  target : Target
  text : String
  createdAt : Nat
  streamId : Option Nat
deriving DecidableEq

/-- The rejection cases of admission control, in the order the code checks
them. -/
inductive RejectReason where
  | emptyInput
  | tooManyItems
  | tooManyCharacters
  | rateLimited
  | duplicate
deriving DecidableEq

/-- Terminal outcome of processing one `followup:create` request. -/
inductive Outcome where
  | rejected (r : RejectReason)
  | notifiedOnly
  | published (streamId : Nat)
deriving DecidableEq

/-- External oracles for one request: the OpenAI call result (`none` models a
thrown error / timeout) and availability of the Redis stream store. -/
structure Env where
  transformResult : Option String
  logOk : Bool
deriving DecidableEq

/-- Result of one `followup:create` invocation: the post state, the messages
sent (in order), the outcome, and instrumentation counting the `xAdd`
attempts against the stream store and the OpenAI calls made. -/
structure HandlerResult where
  state : ServerState
  emitted : List Emitted
  outcome : Outcome
  xAddAttempts : Nat
  transformCalls : Nat

/-- Concatenated length of the items, `data.items.join('').length`. -/
def totalChars (items : List String) : Nat :=
  (String.join items).length

/-- The shape validation at the top of the `followup:create` handler:
empty check, `> 8` items check, `> 300` characters check, in that order;
each failing check just returns (no state touched). -/
def shapeError (items : List String) : Option RejectReason :=
  if items.length = 0 then some .emptyInput
  else if items.length > 8 then some .tooManyItems
  else if totalChars items > 300 then some .tooManyCharacters
  else none

/-- The count returned by `redis.incr(rateLimitKey)`: one more than the live
counter, or 1 if the key is absent or expired (lazy expiry). -/
def rateCount (s : ServerState) (sock : String) (now : Nat) : Nat :=
  match s.rate sock with
  | some (c, exp) => if now < exp then c + 1 else 1
  | none => 1

/-- State change of `redis.incr(rateLimitKey)` followed by
`redis.expire(rateLimitKey, 60)`: the counter becomes `rateCount` and the
expiry is (re)set to `now + 60` on every call. -/
def rateApply (s : ServerState) (sock : String) (now : Nat) : ServerState :=
  { s with rate := fun k => if k = sock then some (rateCount s sock now, now + 60) else s.rate k }

/-- Dedupe fingerprint of the item list.  The code computes
base64(JSON.stringify(items)), which is injective on item lists, so the item
list itself serves as the key. -/
def fingerprint (items : List String) : List String := items

/-- Whether `redis.get(dedupKey)` finds a live dedupe mark. -/
def dedupeLive (s : ServerState) (items : List String) (now : Nat) : Bool :=
  match s.dedupe (fingerprint items) with
  | some exp => decide (now < exp)
  | none => false

/-- Model of `redis.set(dedupKey, '1', { EX: 300 })`: create the mark with
a 300 second TTL. -/
def dedupeSet (s : ServerState) (items : List String) (now : Nat) : ServerState :=
  { s with dedupe := fun k => if k = fingerprint items then some (now + 300) else s.dedupe k }

/-- Model of `redis.xAdd('followups:stream', '*', {items, createdAt,
socketId})`.  The returned id is not used by the code. -/
def xAddFollowups (s : ServerState) (items : List String) (createdAt : Nat)
    (sock : String) : ServerState :=
  { s with followups := s.followups ++ [⟨s.nextId, items, createdAt, sock⟩],
           nextId := s.nextId + 1 }

/-- Model of `redis.xAdd('questions:stream', '*', {text, createdAt})`; the
assigned id is the current `nextId` (captured by the caller as
`streamId`). -/
def xAddQuestions (s : ServerState) (text : String) (now : Nat) : ServerState :=
  { s with questions := s.questions ++ [⟨s.nextId, text, now⟩],
           nextId := s.nextId + 1 }

/-- The fixed apology text emitted by the `catch` block. -/
def apologyText : String := "Sorry, I encountered an error generating questions."

/-- The `followup:create` handler with the rate-limit/dedupe snippet
installed after validation, exactly in source order:
shape checks (no side effect) → `incr`+`expire`+threshold check →
dedupe `get` check → dedupe `set` → `xAdd followups:stream` → OpenAI call →
`xAdd questions:stream` → `publish questions:live` → `io.emit` broadcast.
A thrown error (store down at the first `xAdd`, or OpenAI failure) lands in
the `catch` block, which emits the fixed apology (no stream id) to the
requester only. -/
def followupCreate (s : ServerState) (env : Env) (sock : String)
    (items : List String) (createdAt now : Nat) : HandlerResult :=
  match shapeError items with
  | some r => ⟨s, [], .rejected r, 0, 0⟩
  | none =>
    let count := rateCount s sock now
    let s1 := rateApply s sock now
    if 10 < count then ⟨s1, [], .rejected .rateLimited, 0, 0⟩
    else if dedupeLive s1 items now then ⟨s1, [], .rejected .duplicate, 0, 0⟩
    else
      let s2 := dedupeSet s1 items now
      if env.logOk then
        let s3 := xAddFollowups s2 items createdAt sock
        match env.transformResult with
        | none => ⟨s3, [⟨.requester, apologyText, now, none⟩], .notifiedOnly, 1, 1⟩
        | some aiText =>
          let sid := s3.nextId
          let s4 := xAddQuestions s3 aiText now
          ⟨s4, [⟨.pubsub, aiText, now, some sid⟩, ⟨.everyone, aiText, now, some sid⟩],
            .published sid, 2, 1⟩
      else
        ⟨s2, [⟨.requester, apologyText, now, none⟩], .notifiedOnly, 1, 0⟩

/-- The single `XREAD { key: 'questions:stream', id: lastStreamId || '0' }
{ COUNT: 100 }` of the `request:replay` handler: entries with id strictly
greater than the given id (all of them for `null`, since `'0'` is below
every id), truncated to the first 100.  The read is not repeated. -/
def replayBatch (qs : List Entry) (lastStreamId : Option Nat) : List Entry :=
  (qs.filter fun e => decide (lastStreamId.getD 0 < e.id)).take 100

/-- The `request:replay` handler: one batch read, then one `socket.emit` per
entry, in stream order, each carrying the entry's stream id. -/
def requestReplay (s : ServerState) (lastStreamId : Option Nat) : List Emitted :=
  (replayBatch s.questions lastStreamId).map fun e =>
    ⟨.requester, e.text, e.createdAt, some e.id⟩

/-- One inbound `followup:create` request together with its oracles and its
arrival time. -/
structure Request where
  env : Env
  sock : String
  items : List String
  createdAt : Nat
  now : Nat

/-- Sequential processing of a list of requests (the Node event loop runs
each handler's state transitions in order). -/
def runServer (s : ServerState) : List Request → ServerState
  | [] => s
  | r :: rs => runServer (followupCreate s r.env r.sock r.items r.createdAt r.now).state rs

/-! ## Playback scheduler (participant App.tsx, `speak` / `processQueue`) -/

/-- Client-side scheduler state.  `speakQueue` and `isSpeaking` are the refs
of the code; `rendering` lists the utterances handed to
`window.speechSynthesis.speak` whose `onend`/`onerror` has not fired yet;
`started` and `enqueuedLog` are instrumentation histories recording, in
order, the texts whose rendering started and the texts passed to `speak`. -/
structure SchedState where
  speakQueue : List String
  isSpeaking : Bool
  rendering : List String
  started : List String
  enqueuedLog : List String
deriving DecidableEq

/-- Model of `processQueue`: return if something is speaking or the queue
is empty; otherwise set `isSpeaking`, shift the head of the queue and hand
it to speech synthesis. -/
def processQueue (s : SchedState) : SchedState :=
  if s.isSpeaking then s
  else
    match s.speakQueue with
    | [] => s
    | t :: rest =>
      { s with isSpeaking := true, speakQueue := rest,
               rendering := s.rendering ++ [t], started := s.started ++ [t] }

/-- Model of `speak(text)`: push onto the queue and call `processQueue`; it
returns to the caller unconditionally. -/
def speak (s : SchedState) (t : String) : SchedState :=
  processQueue { s with speakQueue := s.speakQueue ++ [t],
                        enqueuedLog := s.enqueuedLog ++ [t] }

/-- The `utterance.onend` / `utterance.onerror` callback: clear `isSpeaking`
(the finished utterance is no longer rendering) and call `processQueue`. -/
def utterEnd (s : SchedState) : SchedState :=
  processQueue { s with isSpeaking := false, rendering := s.rendering.drop 1 }

/-- External events driving the scheduler: an `agent:questions` delivery
(which calls `speak`) or the end of the active utterance. -/
inductive SchedEvent where
  | enq (t : String)
  | fin
deriving DecidableEq

def schedStep (s : SchedState) : SchedEvent → SchedState
  | .enq t => speak s t
  | .fin => utterEnd s

def schedStart : SchedState := ⟨[], false, [], [], []⟩

/-- The scheduler state after a sequence of events, from the initial state
(the JS event loop serialises the callbacks, so a run is a list of events). -/
def schedRun (evs : List SchedEvent) : SchedState :=
  evs.foldl schedStep schedStart

/-- Scheduler invariant: `isSpeaking` mirrors whether an utterance is
rendering, at most one utterance renders at a time, the enqueue history is
exactly the start history followed by the pending queue, and the queue is
empty whenever nothing is speaking. -/
def SchedInv (s : SchedState) : Prop :=
  (s.isSpeaking = true ↔ s.rendering ≠ []) ∧
  s.rendering.length ≤ 1 ∧
  s.enqueuedLog = s.started ++ s.speakQueue ∧
  (s.isSpeaking = false → s.speakQueue = [])

/-! ## Session / replay interleaving (participant App.tsx connect effect,
server `request:replay` handler) -/

/-- Provenance of a delivery, used to state the replay-before-live claim. -/
inductive Origin where
  | replayed
  | live
deriving DecidableEq

/-- One `agent:questions` message as received by the reconnecting client,
tagged with its provenance. -/
structure Delivery where
  origin : Origin
  text : String
  streamId : Option Nat
deriving DecidableEq

/-- Progress of the replay request on the server: not requested, `xRead`
pending, or batch read and the emit loop pending. -/
inductive SessionPhase where
  | idle
  | awaitingRead (lastSeen : Option Nat)
  | emitting (batch : List Entry)
deriving DecidableEq

/-- Joint state of the questions log, the replay request, and the stream of
deliveries reaching the (connected) client, in order. -/
structure ClientView where
  questions : List Entry
  nextId : Nat
  phase : SessionPhase
  delivered : List Delivery
deriving DecidableEq

/-- Atomic steps of the reconnect window, each one Node event-loop task:
`reconnect` - the client's connect callback runs and emits `request:replay`
(the client listens to `agent:questions` from this point on);
`livePublish` - some other socket's `followup:create` pipeline completes,
appending to `questions:stream` and broadcasting to every connected client,
including this one;
`readResolve` - the replay handler's awaited `xRead` resolves against the
current log;
`emitReplay` - the replay handler's synchronous emit loop delivers the whole
batch.  `livePublish` may interleave anywhere because the replay handler
yields the event loop at its `await`. -/
inductive SessAction where
  | reconnect (lastSeen : Option Nat)
  | livePublish (text : String)
  | readResolve
  | emitReplay
deriving DecidableEq

def sessStep (st : ClientView) : SessAction → Option ClientView
  | .reconnect l =>
    match st.phase with
    | .idle => some { st with phase := .awaitingRead l }
    | _ => none
  | .livePublish txt =>
    some { st with
      questions := st.questions ++ [⟨st.nextId, txt, 0⟩],
      nextId := st.nextId + 1,
      delivered := st.delivered ++ [⟨.live, txt, some st.nextId⟩] }
  | .readResolve =>
    match st.phase with
    | .awaitingRead l => some { st with phase := .emitting (replayBatch st.questions l) }
    | _ => none
  | .emitReplay =>
    match st.phase with
    | .emitting batch =>
      some { st with
        phase := .idle,
        delivered := st.delivered ++ batch.map (fun e => ⟨.replayed, e.text, some e.id⟩) }
    | _ => none

/-- Run a schedule of session actions; `none` when the schedule is not
executable (an action fired out of phase). -/
def sessRun (st : ClientView) : List SessAction → Option ClientView
  | [] => some st
  | a :: rest =>
    match sessStep st a with
    | some st2 => sessRun st2 rest
    | none => none

/-- Whether some live delivery precedes some replayed delivery in the
delivery stream. -/
def liveBeforeReplayed : List Delivery → Bool
  | [] => false
  | d :: rest =>
    (d.origin == .live && rest.any fun e => e.origin == .replayed) || liveBeforeReplayed rest

/-! ## Spec-side fixed-window rate model (comparison model for claim C5) -/

/-- Modelled from the spec: `RateState { windowCount, windowExpiry }` with a
fixed 60 second window created on the first submission of the window and
reset lazily when `windowExpiry` elapses; each admit call increments
`windowCount` within the current window.  This is the claim's notion of
"within the 60-second window", used to compare against the code, whose
`expire` call refreshes the expiry on every submission. -/
def specRateAdmit (st : Nat × Nat) (t : Nat) : Nat × Nat :=
  if st.2 ≤ t then (1, t + 60) else (st.1 + 1, st.2)

/-- Fold the spec-side fixed-window model over a list of admit times. -/
def specRateFold (times : List Nat) : Nat × Nat :=
  times.foldl specRateAdmit (0, 0)

/-! ## Concrete fixtures and small helpers used in the statements -/

/-- Whether an outcome passed admission control (was not rejected). -/
def acceptedOutcome : Outcome → Bool
  | .rejected _ => false
  | _ => true

/-- Ten otherwise-acceptable submissions from socket `"s"`, one second
apart, with pairwise distinct item lists (so dedupe never fires). -/
def burst10 : List Request :=
  (List.range 10).map fun i => ⟨⟨some "Q", true⟩, "s", [Nat.repr i], i, i⟩

/-- Ten otherwise-acceptable submissions from socket `"s"`, 59 seconds
apart, with pairwise distinct item lists. -/
def spacedBurst : List Request :=
  (List.range 10).map fun i => ⟨⟨some "Q", true⟩, "s", [Nat.repr i], 59 * i, 59 * i⟩

/-- Admit-call times of `spacedBurst` followed by an 11th call at t = 590. -/
def spacedTimes : List Nat :=
  ((List.range 10).map fun i => 59 * i) ++ [590]

/-- A state whose rate counter for socket `"s"` already holds 10 with a live
expiry. -/
def hotRate : ServerState :=
  { initState with rate := fun k => if k = "s" then some (10, 100) else none }

/-- A questions log holding `n` entries with ids 1..n. -/
def demoLog (n : Nat) : List Entry :=
  (List.range n).map fun i => ⟨i + 1, "q", 0⟩

/-- A server state whose questions log is `L`. -/
def stateWith (L : List Entry) : ServerState :=
  { initState with questions := L }

/-- The `agent:questions` message the replay loop emits for a log entry. -/
def entryEmit (e : Entry) : Emitted :=
  ⟨.requester, e.text, e.createdAt, some e.id⟩

/-- Reconnect scenario start state: the log holds entries 1..7 (the consumer
saw 1..5 before disconnecting; 6 and 7 were appended meanwhile), no replay
request yet, nothing delivered since the reconnect. -/
def c2Start : ClientView :=
  { questions := [⟨1, "q1", 0⟩, ⟨2, "q2", 0⟩, ⟨3, "q3", 0⟩, ⟨4, "q4", 0⟩,
                  ⟨5, "q5", 0⟩, ⟨6, "q6", 0⟩, ⟨7, "q7", 0⟩],
    nextId := 8, phase := .idle, delivered := [] }

/-- A legal reconnect schedule: the client reconnects declaring
`lastSeenId = 5`; while the replay `xRead` is pending, another reviewer's
submission finishes its pipeline (append + broadcast); then the read
resolves and the batch is emitted. -/
def c2Trace : List SessAction :=
  [.reconnect (some 5), .livePublish "q8", .readResolve, .emitReplay]

/-- Questions-log invariant: entry ids are pairwise increasing along the
list and all below the generator's next id. -/
def LogInv (s : ServerState) : Prop :=
  s.questions.Pairwise (fun a b => a.id < b.id) ∧ ∀ e ∈ s.questions, e.id < s.nextId

/-- A first concrete successful submission. -/
def reqA : Request := ⟨⟨some "Q1", true⟩, "s", ["a"], 0, 0⟩

/-- A second concrete successful submission (distinct items, one second
later). -/
def reqB : Request := ⟨⟨some "Q2", true⟩, "s", ["b"], 1, 1⟩

/-! ## Helper lemmas -/

theorem shapeError_empty_iff (items : List String) :
    shapeError items = some .emptyInput ↔ items.length = 0 := by
  unfold shapeError
  split_ifs <;> simp_all

theorem shapeError_tooMany_iff (items : List String) :
    shapeError items = some .tooManyItems ↔ 8 < items.length := by
  unfold shapeError
  split_ifs <;> simp_all

theorem shapeError_chars_iff (items : List String) :
    shapeError items = some .tooManyCharacters ↔
      (items.length ≠ 0 ∧ items.length ≤ 8 ∧ 300 < totalChars items) := by
  unfold shapeError
  split_ifs <;> simp_all

theorem followupCreate_shape_reject (s : ServerState) (env : Env) (sock : String)
    (items : List String) (createdAt now : Nat) (r : RejectReason)
    (h : shapeError items = some r) :
    followupCreate s env sock items createdAt now = ⟨s, [], .rejected r, 0, 0⟩ := by
  unfold followupCreate
  rw [h]

/-- After the shape checks pass, every path through the handler has already
performed the `incr` + `expire` and never touches the rate keys again. -/
theorem followupCreate_rate_map (s : ServerState) (env : Env) (sock : String)
    (items : List String) (createdAt now : Nat) (h1 : shapeError items = none) :
    (followupCreate s env sock items createdAt now).state.rate
      = (rateApply s sock now).rate := by
  unfold followupCreate
  rw [h1]
  dsimp only
  split
  · rfl
  · split
    · rfl
    · split
      · split <;> rfl
      · rfl

/-- The rate-limit rejection fires exactly when the incremented counter
exceeds 10 (given the shape checks passed). -/
theorem outcome_rateLimited_iff (s : ServerState) (env : Env) (sock : String)
    (items : List String) (createdAt now : Nat) (h1 : shapeError items = none) :
    ((followupCreate s env sock items createdAt now).outcome = .rejected .rateLimited
      ↔ 10 < rateCount s sock now) := by
  unfold followupCreate
  rw [h1]
  dsimp only
  split
  · simp_all
  · split
    · simp_all
    · split
      · split <;> simp_all
      · simp_all

/-- The duplicate rejection fires exactly when a live dedupe mark exists
(given the shape and rate checks passed). -/
theorem outcome_duplicate_iff (s : ServerState) (env : Env) (sock : String)
    (items : List String) (createdAt now : Nat) (h1 : shapeError items = none)
    (h2 : rateCount s sock now ≤ 10) :
    ((followupCreate s env sock items createdAt now).outcome = .rejected .duplicate
      ↔ dedupeLive s items now = true) := by
  have hded : dedupeLive (rateApply s sock now) items now = dedupeLive s items now := rfl
  unfold followupCreate
  rw [h1]
  dsimp only
  rw [if_neg (by omega), hded]
  split
  · simp_all
  · split
    · split <;> simp_all
    · simp_all

theorem followupCreate_rate_reject (s : ServerState) (env : Env) (sock : String)
    (items : List String) (createdAt now : Nat) (h1 : shapeError items = none)
    (hr : 10 < rateCount s sock now) :
    followupCreate s env sock items createdAt now
      = ⟨rateApply s sock now, [], .rejected .rateLimited, 0, 0⟩ := by
  unfold followupCreate
  rw [h1]
  dsimp only
  rw [if_pos hr]

theorem followupCreate_dup_reject (s : ServerState) (env : Env) (sock : String)
    (items : List String) (createdAt now : Nat) (h1 : shapeError items = none)
    (hr : rateCount s sock now ≤ 10) (hd : dedupeLive s items now = true) :
    followupCreate s env sock items createdAt now
      = ⟨rateApply s sock now, [], .rejected .duplicate, 0, 0⟩ := by
  have hded : dedupeLive (rateApply s sock now) items now = true := hd
  unfold followupCreate
  rw [h1]
  dsimp only
  rw [if_neg (by omega), if_pos hded]

theorem followupCreate_logDown (s : ServerState) (env : Env) (sock : String)
    (items : List String) (createdAt now : Nat) (h1 : shapeError items = none)
    (hr : rateCount s sock now ≤ 10) (hd : dedupeLive s items now = false)
    (hlog : env.logOk = false) :
    followupCreate s env sock items createdAt now
      = ⟨dedupeSet (rateApply s sock now) items now,
         [⟨.requester, apologyText, now, none⟩], .notifiedOnly, 1, 0⟩ := by
  have hded : dedupeLive (rateApply s sock now) items now = false := hd
  unfold followupCreate
  rw [h1]
  dsimp only
  rw [if_neg (by omega), if_neg (by rw [hded]; exact Bool.false_ne_true), if_neg (by rw [hlog]; exact Bool.false_ne_true)]

theorem followupCreate_transformFail (s : ServerState) (env : Env) (sock : String)
    (items : List String) (createdAt now : Nat) (h1 : shapeError items = none)
    (hr : rateCount s sock now ≤ 10) (hd : dedupeLive s items now = false)
    (hlog : env.logOk = true) (htr : env.transformResult = none) :
    followupCreate s env sock items createdAt now
      = ⟨xAddFollowups (dedupeSet (rateApply s sock now) items now) items createdAt sock,
         [⟨.requester, apologyText, now, none⟩], .notifiedOnly, 1, 1⟩ := by
  have hded : dedupeLive (rateApply s sock now) items now = false := hd
  unfold followupCreate
  rw [h1]
  dsimp only
  rw [if_neg (by omega), if_neg (by rw [hded]; exact Bool.false_ne_true), if_pos hlog, htr]

theorem followupCreate_success (s : ServerState) (env : Env) (sock : String)
    (items : List String) (createdAt now : Nat) (txt : String)
    (h1 : shapeError items = none) (hr : rateCount s sock now ≤ 10)
    (hd : dedupeLive s items now = false)
    (hlog : env.logOk = true) (htr : env.transformResult = some txt) :
    followupCreate s env sock items createdAt now
      = ⟨xAddQuestions
           (xAddFollowups (dedupeSet (rateApply s sock now) items now) items createdAt sock)
           txt now,
         [⟨.pubsub, txt, now, some (s.nextId + 1)⟩, ⟨.everyone, txt, now, some (s.nextId + 1)⟩],
         .published (s.nextId + 1), 2, 1⟩ := by
  have hded : dedupeLive (rateApply s sock now) items now = false := hd
  unfold followupCreate
  rw [h1]
  dsimp only
  rw [if_neg (by omega), if_neg (by rw [hded]; exact Bool.false_ne_true), if_pos hlog, htr]
  rfl

/-- An admission-passing submission is never rejected, whatever the oracles
do afterwards. -/
theorem accepted_of_pass (s : ServerState) (env : Env) (sock : String)
    (items : List String) (createdAt now : Nat) (h1 : shapeError items = none)
    (hr : rateCount s sock now ≤ 10) (hd : dedupeLive s items now = false) :
    acceptedOutcome (followupCreate s env sock items createdAt now).outcome = true := by
  cases hlog : env.logOk with
  | false => rw [followupCreate_logDown s env sock items createdAt now h1 hr hd hlog]; rfl
  | true =>
    cases htr : env.transformResult with
    | none => rw [followupCreate_transformFail s env sock items createdAt now h1 hr hd hlog htr]; rfl
    | some txt => rw [followupCreate_success s env sock items createdAt now txt h1 hr hd hlog htr]; rfl

/-- A rejected submission is terminal: no stream append is attempted, no
OpenAI call is made, nothing is emitted. -/
theorem rejected_terminal (s : ServerState) (env : Env) (sock : String)
    (items : List String) (createdAt now : Nat) (r : RejectReason)
    (h : (followupCreate s env sock items createdAt now).outcome = .rejected r) :
    (followupCreate s env sock items createdAt now).xAddAttempts = 0 ∧
    (followupCreate s env sock items createdAt now).transformCalls = 0 ∧
    (followupCreate s env sock items createdAt now).emitted = [] := by
  cases hs : shapeError items with
  | some r0 =>
    rw [followupCreate_shape_reject s env sock items createdAt now r0 hs]
    exact ⟨rfl, rfl, rfl⟩
  | none =>
    by_cases hrate : 10 < rateCount s sock now
    · rw [followupCreate_rate_reject s env sock items createdAt now hs hrate]
      exact ⟨rfl, rfl, rfl⟩
    · cases hd : dedupeLive s items now with
      | true =>
        rw [followupCreate_dup_reject s env sock items createdAt now hs (by omega) hd]
        exact ⟨rfl, rfl, rfl⟩
      | false =>
        have := accepted_of_pass s env sock items createdAt now hs (by omega) hd
        rw [h] at this
        exact absurd this (by simp [acceptedOutcome])

/-! ## Claim C8: shape validation runs first and mutates nothing -/

/-- C8.  A submission failing a shape check is rejected with `EmptyInput`
exactly when the item count is 0, with `TooManyItems` exactly when the item
count exceeds 8, with `TooManyCharacters` exactly when the concatenated item
length exceeds 300 (and the earlier checks passed, as they run in source
order); the rejection leaves the state untouched, emits nothing, attempts no
stream append and makes no OpenAI call. -/
theorem C8_shape_validation (s : ServerState) (env : Env) (sock : String)
    (items : List String) (createdAt now : Nat) (r : RejectReason)
    (h : shapeError items = some r) :
    ((followupCreate s env sock items createdAt now).outcome = .rejected .emptyInput
      ↔ items.length = 0) ∧
    ((followupCreate s env sock items createdAt now).outcome = .rejected .tooManyItems
      ↔ 8 < items.length) ∧
    ((followupCreate s env sock items createdAt now).outcome = .rejected .tooManyCharacters
      ↔ (items.length ≠ 0 ∧ items.length ≤ 8 ∧ 300 < totalChars items)) ∧
    (followupCreate s env sock items createdAt now).outcome = .rejected r ∧
    (followupCreate s env sock items createdAt now).state = s ∧
    (followupCreate s env sock items createdAt now).emitted = [] ∧
    (followupCreate s env sock items createdAt now).xAddAttempts = 0 ∧
    (followupCreate s env sock items createdAt now).transformCalls = 0 := by
  have hres := followupCreate_shape_reject s env sock items createdAt now r h
  refine ⟨?_, ?_, ?_, by rw [hres], by rw [hres], by rw [hres], by rw [hres], by rw [hres]⟩
  · rw [hres]
    simp only [Outcome.rejected.injEq]
    rw [← shapeError_empty_iff items, h]
    constructor
    · rintro rfl; rfl
    · intro hh; injection hh
  · rw [hres]
    simp only [Outcome.rejected.injEq]
    rw [← shapeError_tooMany_iff items, h]
    constructor
    · rintro rfl; rfl
    · intro hh; injection hh
  · rw [hres]
    simp only [Outcome.rejected.injEq]
    rw [← shapeError_chars_iff items, h]
    constructor
    · rintro rfl; rfl
    · intro hh; injection hh

/-- Witness for C8 at the concrete input `items = []`. -/
theorem C8_shape_validation_witness :
    shapeError ([] : List String) = some .emptyInput ∧
    (followupCreate initState ⟨some "Q", true⟩ "s" [] 0 0).outcome
      = .rejected .emptyInput ∧
    (followupCreate initState ⟨some "Q", true⟩ "s" [] 0 0).state = initState ∧
    (followupCreate initState ⟨some "Q", true⟩ "s" [] 0 0).xAddAttempts = 0 := by
  refine ⟨by decide, ?_, ?_, ?_⟩
  · exact (C8_shape_validation initState ⟨some "Q", true⟩ "s" [] 0 0 .emptyInput
      (by decide)).2.2.2.1
  · exact (C8_shape_validation initState ⟨some "Q", true⟩ "s" [] 0 0 .emptyInput
      (by decide)).2.2.2.2.1
  · exact (C8_shape_validation initState ⟨some "Q", true⟩ "s" [] 0 0 .emptyInput
      (by decide)).2.2.2.2.2.2.1

/-! ## Claim C10: rate limiting is keyed by the socket id -/

/-- C10.  Processing a submission on connection `sock` updates only `sock`'s
rate counter: every other connection's counter is unchanged; and a fresh
connection (no live counter) starts from zero, so its first increment yields
count 1, stores `(1, now + 60)`, and the submission is not rate limited. -/
theorem C10_rate_per_connection (s : ServerState) (env : Env) (sock sock2 : String)
    (items : List String) (createdAt now : Nat)
    (hne : sock2 ≠ sock) (hfresh : s.rate sock = none) (h1 : shapeError items = none) :
    (followupCreate s env sock items createdAt now).state.rate sock2 = s.rate sock2 ∧
    rateCount s sock now = 1 ∧
    (followupCreate s env sock items createdAt now).state.rate sock = some (1, now + 60) ∧
    (followupCreate s env sock items createdAt now).outcome ≠ .rejected .rateLimited := by
  have hcount : rateCount s sock now = 1 := by
    unfold rateCount
    rw [hfresh]
  have hmap := followupCreate_rate_map s env sock items createdAt now h1
  refine ⟨?_, hcount, ?_, ?_⟩
  · rw [hmap]
    unfold rateApply
    simp [hne]
  · rw [hmap]
    unfold rateApply
    simp [hcount]
  · intro hcon
    have := (outcome_rateLimited_iff s env sock items createdAt now h1).mp hcon
    omega

/-- Witness for C10 at concrete distinct socket ids from the initial state. -/
theorem C10_rate_per_connection_witness :
    ("other" ≠ "s") ∧ initState.rate "s" = none ∧ shapeError ["a"] = none ∧
    ((followupCreate initState ⟨some "Q", true⟩ "s" ["a"] 0 0).state.rate "other"
        = initState.rate "other" ∧
      rateCount initState "s" 0 = 1 ∧
      (followupCreate initState ⟨some "Q", true⟩ "s" ["a"] 0 0).state.rate "s"
        = some (1, 0 + 60) ∧
      (followupCreate initState ⟨some "Q", true⟩ "s" ["a"] 0 0).outcome
        ≠ .rejected .rateLimited) :=
  ⟨by decide, by decide, by decide,
    C10_rate_per_connection initState ⟨some "Q", true⟩ "s" "other" ["a"] 0 0
      (by decide) (by decide) (by decide)⟩

/-! ## Claim C4: the playback scheduler -/

theorem processQueue_enqueuedLog (s : SchedState) :
    (processQueue s).enqueuedLog = s.enqueuedLog := by
  unfold processQueue
  split
  · rfl
  · split <;> rfl

theorem schedInv_start : SchedInv schedStart := by
  simp [SchedInv, schedStart]

theorem schedInv_step (s : SchedState) (ev : SchedEvent) (h : SchedInv s) :
    SchedInv (schedStep s ev) := by
  obtain ⟨h1, h2, h3, h4⟩ := h
  cases ev with
  | enq t =>
    show SchedInv (speak s t)
    unfold speak processQueue
    cases hsp : s.isSpeaking with
    | true =>
      simp only [if_true]
      refine ⟨?_, h2, ?_, ?_⟩
      · simpa [hsp] using h1
      · simp [h3]
      · simp [hsp]
    | false =>
      have hq : s.speakQueue = [] := h4 hsp
      have hr : s.rendering = [] := by
        by_contra hcon
        have := h1.mpr hcon
        rw [hsp] at this
        exact Bool.false_ne_true this
      simp only [hsp, if_false, hq, List.nil_append]
      refine ⟨?_, ?_, ?_, ?_⟩ <;> simp [hr, h3, hq]
  | fin =>
    show SchedInv (utterEnd s)
    have hdrop : s.rendering.drop 1 = [] := by
      cases hr : s.rendering with
      | nil => rfl
      | cons a l =>
        rw [hr] at h2
        simp at h2
        simp [h2]
    unfold utterEnd processQueue
    simp only [if_false]
    cases hq : s.speakQueue with
    | nil =>
      refine ⟨?_, ?_, ?_, ?_⟩ <;> simp [hdrop, h3, hq]
    | cons t rest =>
      refine ⟨?_, ?_, ?_, ?_⟩ <;> simp [hdrop, h3, hq]

theorem schedInv_run (evs : List SchedEvent) : SchedInv (schedRun evs) := by
  have main : ∀ (l : List SchedEvent) (s : SchedState), SchedInv s →
      SchedInv (l.foldl schedStep s) := by
    intro l
    induction l with
    | nil => intro s hs; exact hs
    | cons a l ih =>
      intro s hs
      exact ih _ (schedInv_step s a hs)
  exact main evs schedStart schedInv_start

/-- C4.  In every state reachable by any sequence of deliveries and
render-completion events: at most one utterance is rendering; the texts whose
rendering has started, followed by the still-queued texts, are exactly the
enqueue history in order (renders happen in FIFO order); and `speak` accepts
any state unconditionally, appending its text to the enqueue history (it
never blocks the caller).  In particular two deliveries in close succession
are never rendered concurrently: the second starts only after the first's
completion event. -/
theorem C4_playback_scheduler (evs : List SchedEvent) (t : String) :
    (schedRun evs).rendering.length ≤ 1 ∧
    (schedRun evs).enqueuedLog = (schedRun evs).started ++ (schedRun evs).speakQueue ∧
    (speak (schedRun evs) t).enqueuedLog = (schedRun evs).enqueuedLog ++ [t] := by
  obtain ⟨h1, h2, h3, h4⟩ := schedInv_run evs
  refine ⟨h2, h3, ?_⟩
  unfold speak
  rw [processQueue_enqueuedLog]

/-! ## Claim C7: transform failure yields one non-replayable apology -/

/-- C7.  When the OpenAI call fails (`env` with `transformResult = none`),
the handler emits exactly one event — the fixed apology, to the requester,
with no stream id — and the questions log is unchanged; and on the success
path (`env2`), the two outgoing messages both carry exactly the id of the
entry just appended to the questions log, so an id is present iff the event
corresponds to a successfully appended entry. -/
theorem C7_transform_failure (s : ServerState) (env env2 : Env) (sock : String)
    (items : List String) (createdAt now : Nat) (txt : String)
    (h1 : shapeError items = none) (h2 : rateCount s sock now ≤ 10)
    (h3 : dedupeLive s items now = false)
    (h4 : env.logOk = true) (h5 : env.transformResult = none)
    (h6 : env2.logOk = true) (h7 : env2.transformResult = some txt) :
    (followupCreate s env sock items createdAt now).emitted
      = [⟨.requester, apologyText, now, none⟩] ∧
    (followupCreate s env sock items createdAt now).state.questions = s.questions ∧
    (followupCreate s env sock items createdAt now).outcome = .notifiedOnly ∧
    (followupCreate s env2 sock items createdAt now).state.questions
      = s.questions ++ [⟨s.nextId + 1, txt, now⟩] ∧
    (followupCreate s env2 sock items createdAt now).emitted
      = [⟨.pubsub, txt, now, some (s.nextId + 1)⟩,
         ⟨.everyone, txt, now, some (s.nextId + 1)⟩] := by
  rw [followupCreate_transformFail s env sock items createdAt now h1 h2 h3 h4 h5,
      followupCreate_success s env2 sock items createdAt now txt h1 h2 h3 h6 h7]
  exact ⟨rfl, rfl, rfl, rfl, rfl⟩

/-- Witness for C7 from the initial state. -/
theorem C7_transform_failure_witness :
    shapeError ["a"] = none ∧ rateCount initState "s" 0 ≤ 10 ∧
    dedupeLive initState ["a"] 0 = false ∧
    ((followupCreate initState ⟨none, true⟩ "s" ["a"] 0 0).emitted
        = [⟨.requester, apologyText, 0, none⟩] ∧
      (followupCreate initState ⟨none, true⟩ "s" ["a"] 0 0).state.questions
        = initState.questions ∧
      (followupCreate initState ⟨none, true⟩ "s" ["a"] 0 0).outcome = .notifiedOnly ∧
      (followupCreate initState ⟨some "Q", true⟩ "s" ["a"] 0 0).state.questions
        = initState.questions ++ [⟨initState.nextId + 1, "Q", 0⟩] ∧
      (followupCreate initState ⟨some "Q", true⟩ "s" ["a"] 0 0).emitted
        = [⟨.pubsub, "Q", 0, some (initState.nextId + 1)⟩,
           ⟨.everyone, "Q", 0, some (initState.nextId + 1)⟩]) :=
  ⟨by decide, by decide, by decide,
    C7_transform_failure initState ⟨none, true⟩ ⟨some "Q", true⟩ "s" ["a"] 0 0 "Q"
      (by decide) (by decide) (by decide) (by decide) (by decide) (by decide) (by decide)⟩

/-! ## Claim C6: deduplication -/

/-- The dedupe mark key after a call that reached the dedupe stage: it is
left as it was on a duplicate rejection, and otherwise created with the
fixed 300 second TTL. -/
theorem followupCreate_mark (s : ServerState) (env : Env) (sock : String)
    (items : List String) (createdAt now : Nat)
    (h1 : shapeError items = none) (h2 : rateCount s sock now ≤ 10) :
    (followupCreate s env sock items createdAt now).state.dedupe (fingerprint items)
      = if dedupeLive s items now then s.dedupe (fingerprint items)
        else some (now + 300) := by
  cases hd : dedupeLive s items now with
  | true =>
    rw [if_pos rfl]
    rw [followupCreate_dup_reject s env sock items createdAt now h1 h2 hd]
    rfl
  | false =>
    rw [if_neg Bool.false_ne_true]
    have hset : (dedupeSet (rateApply s sock now) items now).dedupe (fingerprint items)
        = some (now + 300) := by
      unfold dedupeSet
      simp
    cases hlog : env.logOk with
    | false =>
      rw [followupCreate_logDown s env sock items createdAt now h1 h2 hd hlog]
      exact hset
    | true =>
      cases htr : env.transformResult with
      | none =>
        rw [followupCreate_transformFail s env sock items createdAt now h1 h2 hd hlog htr]
        exact hset
      | some txt =>
        rw [followupCreate_success s env sock items createdAt now txt h1 h2 hd hlog htr]
        exact hset

/-- The rate counter a later call observes, in terms of the pre-call
state. -/
theorem rateCount_after (s : ServerState) (env : Env) (sock sock2 : String)
    (items : List String) (createdAt now t2 : Nat) (h1 : shapeError items = none) :
    rateCount (followupCreate s env sock items createdAt now).state sock2 t2
      = if sock2 = sock then (if t2 < now + 60 then rateCount s sock now + 1 else 1)
        else rateCount s sock2 t2 := by
  unfold rateCount
  rw [followupCreate_rate_map s env sock items createdAt now h1]
  unfold rateApply
  dsimp only
  by_cases hsb : sock2 = sock
  · rw [if_pos hsb, if_pos hsb]
    rfl
  · rw [if_neg hsb, if_neg hsb]

/-- Two identical otherwise-acceptable submissions from the fresh initial
store: the second is a duplicate exactly when within 300 seconds of the
first. -/
theorem dedupe_scenario (items : List String) (t1 t2 : Nat) (envA envB : Env)
    (sockA sockB : String) (h1 : shapeError items = none) :
    ((followupCreate (followupCreate initState envA sockA items t1 t1).state
        envB sockB items t2 t2).outcome = .rejected .duplicate ↔ t2 < t1 + 300) ∧
    (acceptedOutcome (followupCreate (followupCreate initState envA sockA items t1 t1).state
        envB sockB items t2 t2).outcome = true ↔ ¬ t2 < t1 + 300) := by
  have hrate1 : rateCount initState sockA t1 ≤ 10 := by
    have h : rateCount initState sockA t1 = 1 := rfl
    omega
  have hd1 : dedupeLive initState items t1 = false := rfl
  have hmark1 : (followupCreate initState envA sockA items t1 t1).state.dedupe
      (fingerprint items) = some (t1 + 300) := by
    rw [followupCreate_mark initState envA sockA items t1 t1 h1 hrate1, hd1]
    rfl
  have hrate2 : rateCount (followupCreate initState envA sockA items t1 t1).state
      sockB t2 ≤ 10 := by
    rw [rateCount_after initState envA sockA sockB items t1 t1 t2 h1]
    have e1 : rateCount initState sockA t1 = 1 := rfl
    have e2 : rateCount initState sockB t2 = 1 := rfl
    rw [e1, e2]
    split_ifs <;> omega
  have hlive2 : dedupeLive (followupCreate initState envA sockA items t1 t1).state
      items t2 = decide (t2 < t1 + 300) := by
    unfold dedupeLive
    rw [hmark1]
  have hiff := outcome_duplicate_iff (followupCreate initState envA sockA items t1 t1).state
    envB sockB items t2 t2 h1 hrate2
  constructor
  · rw [hiff, hlive2]
    exact decide_eq_true_iff
  · by_cases hin : t2 < t1 + 300
    · have hdup : (followupCreate (followupCreate initState envA sockA items t1 t1).state
          envB sockB items t2 t2).outcome = .rejected .duplicate := by
        rw [hiff, hlive2]
        exact decide_eq_true hin
      rw [hdup]
      simp [acceptedOutcome, hin]
    · have hd2 : dedupeLive (followupCreate initState envA sockA items t1 t1).state
          items t2 = false := by
        rw [hlive2]
        exact decide_eq_false hin
      have hacc := accepted_of_pass (followupCreate initState envA sockA items t1 t1).state
        envB sockB items t2 t2 h1 hrate2 hd2
      rw [hacc]
      simp [hin]

/-- C6.  A submission that reaches the dedupe check (shape and rate passed)
is rejected as a duplicate exactly when a live mark exists for the
fingerprint of its item list; the mark key is left untouched on a duplicate
rejection and is otherwise created with expiry `now + 300` (the fixed 300
second TTL).  Consequently, of two identical otherwise-acceptable
submissions starting from a fresh store, the second is rejected as a
duplicate exactly when it arrives within 300 seconds of the first, and is
accepted exactly when it does not. -/
theorem C6_deduplication (s : ServerState) (env envA envB : Env)
    (sock sockA sockB : String) (items : List String) (createdAt now t1 t2 : Nat)
    (h1 : shapeError items = none) (h2 : rateCount s sock now ≤ 10) :
    ((followupCreate s env sock items createdAt now).outcome = .rejected .duplicate
      ↔ dedupeLive s items now = true) ∧
    ((followupCreate s env sock items createdAt now).state.dedupe (fingerprint items)
      = if dedupeLive s items now then s.dedupe (fingerprint items) else some (now + 300)) ∧
    ((followupCreate (followupCreate initState envA sockA items t1 t1).state
        envB sockB items t2 t2).outcome = .rejected .duplicate ↔ t2 < t1 + 300) ∧
    (acceptedOutcome (followupCreate (followupCreate initState envA sockA items t1 t1).state
        envB sockB items t2 t2).outcome = true ↔ ¬ t2 < t1 + 300) :=
  ⟨outcome_duplicate_iff s env sock items createdAt now h1 h2,
   followupCreate_mark s env sock items createdAt now h1 h2,
   (dedupe_scenario items t1 t2 envA envB sockA sockB h1).1,
   (dedupe_scenario items t1 t2 envA envB sockA sockB h1).2⟩

/-- Witness for C6: identical item lists 100 seconds apart (rejected), the
same after 400 seconds would not be (instantiating `t2` inside the window
here). -/
theorem C6_deduplication_witness :
    shapeError ["a"] = none ∧ rateCount initState "s" 0 ≤ 10 ∧
    ((followupCreate (followupCreate initState ⟨some "Q", true⟩ "s" ["a"] 0 0).state
        ⟨some "Q", true⟩ "s" ["a"] 100 100).outcome = .rejected .duplicate ↔ 100 < 0 + 300) ∧
    ((followupCreate initState ⟨some "Q", true⟩ "s" ["a"] 0 0).state.dedupe
        (fingerprint ["a"])
      = if dedupeLive initState ["a"] 0 then initState.dedupe (fingerprint ["a"])
        else some (0 + 300)) := by
  refine ⟨by decide, by decide, ?_, ?_⟩
  · exact (C6_deduplication initState ⟨some "Q", true⟩ ⟨some "Q", true⟩ ⟨some "Q", true⟩
      "s" "s" "s" ["a"] 0 0 0 100 (by decide) (by decide)).2.2.1
  · exact (C6_deduplication initState ⟨some "Q", true⟩ ⟨some "Q", true⟩ ⟨some "Q", true⟩
      "s" "s" "s" ["a"] 0 0 0 100 (by decide) (by decide)).2.1

/-! ## Claim C5 (corrected): rate limiting -/

/-- C5 (amended).  The rate counter is incremented on every admit call that
passes the shape checks and its 60 second expiry is refreshed on that same
call (`expire` runs every time), so the window slides: the counter resets
only once 60 seconds pass with no call.  A submission is rejected as
rate-limited exactly when the incremented count exceeds 10.  In particular
the 11th submission within 60 seconds is rejected and the 1st submission on
a fresh counter is accepted. -/
theorem C5_rate_limiting (s : ServerState) (env : Env) (sock : String)
    (items : List String) (createdAt now : Nat) (h1 : shapeError items = none) :
    ((followupCreate s env sock items createdAt now).outcome = .rejected .rateLimited
      ↔ 10 < rateCount s sock now) ∧
    (followupCreate s env sock items createdAt now).state.rate sock
      = some (rateCount s sock now, now + 60) ∧
    (followupCreate (runServer initState burst10) ⟨some "Q", true⟩ "s" ["z"] 10 10).outcome
      = .rejected .rateLimited ∧
    (followupCreate initState ⟨some "Q", true⟩ "s" ["z"] 0 0).outcome
      ≠ .rejected .rateLimited := by
  refine ⟨outcome_rateLimited_iff s env sock items createdAt now h1, ?_, by decide, by decide⟩
  rw [followupCreate_rate_map s env sock items createdAt now h1]
  unfold rateApply
  simp

/-- Witness for C5 (amended) at the initial state. -/
theorem C5_rate_limiting_witness :
    shapeError ["a"] = none ∧
    (((followupCreate initState ⟨some "Q", true⟩ "s" ["a"] 0 0).outcome
        = .rejected .rateLimited ↔ 10 < rateCount initState "s" 0) ∧
      (followupCreate initState ⟨some "Q", true⟩ "s" ["a"] 0 0).state.rate "s"
        = some (rateCount initState "s" 0, 0 + 60) ∧
      (followupCreate (runServer initState burst10) ⟨some "Q", true⟩ "s" ["z"] 10 10).outcome
        = .rejected .rateLimited ∧
      (followupCreate initState ⟨some "Q", true⟩ "s" ["z"] 0 0).outcome
        ≠ .rejected .rateLimited) :=
  ⟨by decide, C5_rate_limiting initState ⟨some "Q", true⟩ "s" ["a"] 0 0 (by decide)⟩

/-- C5 counterexample to the claim as stated.  Eleven otherwise-acceptable
submissions from one socket, 59 seconds apart (spanning 590 seconds): the
code rejects the 11th as rate-limited, although under the claim's fixed
60-second window (the spec's `RateState`, reset lazily on expiry) the 11th
call is the 1st of a fresh window — its window count is 1, which does not
exceed 10, so the claim says it is accepted. -/
theorem C5_rate_limiting_counterexample :
    (followupCreate (runServer initState spacedBurst) ⟨some "Q", true⟩ "s" ["z"] 590 590).outcome
      = .rejected .rateLimited ∧
    (specRateFold spacedTimes).1 = 1 ∧
    ¬ 10 < (specRateFold spacedTimes).1 :=
  ⟨by decide, by decide, by decide⟩

/-! ## Claim C9 (corrected): no retry anywhere -/

/-- C9 (amended).  When the stream store is unavailable, the append is
attempted exactly once — there is no retry — and the failure is surfaced to
the submitter as the single fixed apology notice; admission rejections are
terminal with no append attempt and no backend call; a transform failure is
terminal for the submission with exactly one backend call and no further
append attempt. -/
theorem C9_no_retry (s s3 : ServerState) (env env3 env4 : Env) (sock sock3 : String)
    (items items3 : List String) (createdAt now c3 n3 : Nat) (r3 : RejectReason)
    (h1 : shapeError items = none) (h2 : rateCount s sock now ≤ 10)
    (h3 : dedupeLive s items now = false) (hlog : env.logOk = false)
    (h9 : (followupCreate s3 env3 sock3 items3 c3 n3).outcome = .rejected r3)
    (h11 : env4.logOk = true) (h12 : env4.transformResult = none) :
    (followupCreate s env sock items createdAt now).xAddAttempts = 1 ∧
    (followupCreate s env sock items createdAt now).emitted
      = [⟨.requester, apologyText, now, none⟩] ∧
    (followupCreate s3 env3 sock3 items3 c3 n3).xAddAttempts = 0 ∧
    (followupCreate s3 env3 sock3 items3 c3 n3).transformCalls = 0 ∧
    (followupCreate s env4 sock items createdAt now).transformCalls = 1 ∧
    (followupCreate s env4 sock items createdAt now).xAddAttempts = 1 ∧
    (followupCreate s env4 sock items createdAt now).outcome = .notifiedOnly := by
  obtain ⟨hA, hB, _⟩ := rejected_terminal s3 env3 sock3 items3 c3 n3 r3 h9
  rw [followupCreate_logDown s env sock items createdAt now h1 h2 h3 hlog,
      followupCreate_transformFail s env4 sock items createdAt now h1 h2 h3 h11 h12]
  exact ⟨rfl, rfl, hA, hB, rfl, rfl, rfl⟩

/-- Witness for C9 (amended). -/
theorem C9_no_retry_witness :
    shapeError ["a"] = none ∧ rateCount initState "s" 0 ≤ 10 ∧
    dedupeLive initState ["a"] 0 = false ∧
    (followupCreate hotRate ⟨some "Q", true⟩ "s" ["b"] 0 0).outcome
      = .rejected .rateLimited ∧
    ((followupCreate initState ⟨some "Q", false⟩ "s" ["a"] 0 0).xAddAttempts = 1 ∧
      (followupCreate initState ⟨some "Q", false⟩ "s" ["a"] 0 0).emitted
        = [⟨.requester, apologyText, 0, none⟩] ∧
      (followupCreate hotRate ⟨some "Q", true⟩ "s" ["b"] 0 0).xAddAttempts = 0 ∧
      (followupCreate hotRate ⟨some "Q", true⟩ "s" ["b"] 0 0).transformCalls = 0 ∧
      (followupCreate initState ⟨none, true⟩ "s" ["a"] 0 0).transformCalls = 1 ∧
      (followupCreate initState ⟨none, true⟩ "s" ["a"] 0 0).xAddAttempts = 1 ∧
      (followupCreate initState ⟨none, true⟩ "s" ["a"] 0 0).outcome = .notifiedOnly) :=
  ⟨by decide, by decide, by decide, by decide,
    C9_no_retry initState hotRate ⟨some "Q", false⟩ ⟨some "Q", true⟩ ⟨none, true⟩
      "s" "s" ["a"] ["b"] 0 0 0 0 .rateLimited
      (by decide) (by decide) (by decide) (by decide) (by decide) (by decide) (by decide)⟩

/-- C9 counterexample to the claim as stated.  With the store down, the code
makes exactly one append attempt for the submission and surfaces the fatal
apology: the append is not retried (a retry would mean at least two
attempts). -/
theorem C9_no_retry_counterexample :
    (followupCreate initState ⟨some "Q", false⟩ "sock" ["a"] 0 0).xAddAttempts = 1 ∧
    (followupCreate initState ⟨some "Q", false⟩ "sock" ["a"] 0 0).emitted
      = [⟨.requester, apologyText, 0, none⟩] ∧
    ¬ 2 ≤ (followupCreate initState ⟨some "Q", false⟩ "sock" ["a"] 0 0).xAddAttempts :=
  ⟨by decide, by decide, by decide⟩

/-! ## Claim C3: the questions log is append-only with increasing ids -/

/-- Per-request effect on the questions log: either untouched (with the id
generator not going backwards) or exactly one entry appended, carrying the
id the store assigned (above every previous id). -/
theorem followupCreate_questions (s : ServerState) (env : Env) (sock : String)
    (items : List String) (createdAt now : Nat) :
    ((followupCreate s env sock items createdAt now).state.questions = s.questions ∧
      s.nextId ≤ (followupCreate s env sock items createdAt now).state.nextId) ∨
    (∃ txt, (followupCreate s env sock items createdAt now).state.questions
        = s.questions ++ [⟨s.nextId + 1, txt, now⟩] ∧
      (followupCreate s env sock items createdAt now).state.nextId = s.nextId + 2) := by
  cases hs : shapeError items with
  | some r0 =>
    rw [followupCreate_shape_reject s env sock items createdAt now r0 hs]
    exact Or.inl ⟨rfl, Nat.le_refl _⟩
  | none =>
    by_cases hrate : 10 < rateCount s sock now
    · rw [followupCreate_rate_reject s env sock items createdAt now hs hrate]
      exact Or.inl ⟨rfl, Nat.le_refl _⟩
    · cases hd : dedupeLive s items now with
      | true =>
        rw [followupCreate_dup_reject s env sock items createdAt now hs (by omega) hd]
        exact Or.inl ⟨rfl, Nat.le_refl _⟩
      | false =>
        cases hlog : env.logOk with
        | false =>
          rw [followupCreate_logDown s env sock items createdAt now hs (by omega) hd hlog]
          exact Or.inl ⟨rfl, Nat.le_refl _⟩
        | true =>
          cases htr : env.transformResult with
          | none =>
            rw [followupCreate_transformFail s env sock items createdAt now hs (by omega) hd hlog htr]
            exact Or.inl ⟨rfl, Nat.le_succ _⟩
          | some txt =>
            rw [followupCreate_success s env sock items createdAt now txt hs (by omega) hd hlog htr]
            exact Or.inr ⟨txt, rfl, rfl⟩

/-- One request preserves the log invariant. -/
theorem logInv_step (s : ServerState) (env : Env) (sock : String)
    (items : List String) (createdAt now : Nat) (h : LogInv s) :
    LogInv (followupCreate s env sock items createdAt now).state := by
  obtain ⟨hp, hlt⟩ := h
  rcases followupCreate_questions s env sock items createdAt now with
    ⟨hq, hn⟩ | ⟨txt, hq, hn⟩
  · exact ⟨by rw [hq]; exact hp, by rw [hq, ]; intro e he; exact lt_of_lt_of_le (hlt e he) hn⟩
  · constructor
    · rw [hq]
      refine List.pairwise_append.mpr ⟨hp, List.pairwise_singleton _ _, ?_⟩
      intro a ha b hb
      rw [List.mem_singleton] at hb
      subst hb
      exact lt_trans (hlt a ha) (Nat.lt_succ_self _)
    · rw [hq, hn]
      intro e he
      rcases List.mem_append.mp he with h1 | h1
      · exact lt_trans (hlt e h1) (by omega)
      · rw [List.mem_singleton] at h1
        subst h1
        exact Nat.lt_succ_self _

/-- The log invariant holds along every run from the initial state. -/
theorem logInv_run (s : ServerState) (reqs : List Request) (h : LogInv s) :
    LogInv (runServer s reqs) := by
  induction reqs generalizing s with
  | nil => exact h
  | cons r rs ih =>
    exact ih _ (logInv_step s r.env r.sock r.items r.createdAt r.now h)

theorem logInv_initState : LogInv initState :=
  ⟨List.Pairwise.nil, by intro e he; cases he⟩

/-- Runs decompose along list append. -/
theorem runServer_append_list (s : ServerState) (l1 l2 : List Request) :
    runServer s (l1 ++ l2) = runServer (runServer s l1) l2 := by
  induction l1 generalizing s with
  | nil => rfl
  | cons r rs ih => exact ih _

/-- Processing more requests only ever appends to the questions log. -/
theorem runServer_append_only (s : ServerState) (reqs : List Request) :
    ∃ tl, (runServer s reqs).questions = s.questions ++ tl := by
  induction reqs generalizing s with
  | nil => exact ⟨[], (List.append_nil _).symm⟩
  | cons r rs ih =>
    rcases followupCreate_questions s r.env r.sock r.items r.createdAt r.now with
      ⟨hq, _⟩ | ⟨txt, hq, _⟩
    · rcases ih (followupCreate s r.env r.sock r.items r.createdAt r.now).state with ⟨tl, htl⟩
      exact ⟨tl, by rw [runServer, htl, hq]⟩
    · rcases ih (followupCreate s r.env r.sock r.items r.createdAt r.now).state with ⟨tl, htl⟩
      exact ⟨[⟨s.nextId + 1, txt, r.now⟩] ++ tl,
        by rw [runServer, htl, hq, List.append_assoc]⟩

/-- A successful publication reports exactly the id the store assigned. -/
theorem published_id (s : ServerState) (env : Env) (sock : String)
    (items : List String) (createdAt now sid : Nat)
    (h : (followupCreate s env sock items createdAt now).outcome = .published sid) :
    sid = s.nextId + 1 := by
  cases hs : shapeError items with
  | some r0 =>
    rw [followupCreate_shape_reject s env sock items createdAt now r0 hs] at h
    exact absurd h (by simp)
  | none =>
    by_cases hrate : 10 < rateCount s sock now
    · rw [followupCreate_rate_reject s env sock items createdAt now hs hrate] at h
      exact absurd h (by simp)
    · cases hd : dedupeLive s items now with
      | true =>
        rw [followupCreate_dup_reject s env sock items createdAt now hs (by omega) hd] at h
        exact absurd h (by simp)
      | false =>
        cases hlog : env.logOk with
        | false =>
          rw [followupCreate_logDown s env sock items createdAt now hs (by omega) hd hlog] at h
          exact absurd h (by simp)
        | true =>
          cases htr : env.transformResult with
          | none =>
            rw [followupCreate_transformFail s env sock items createdAt now hs (by omega) hd hlog htr] at h
            exact absurd h (by simp)
          | some txt =>
            rw [followupCreate_success s env sock items createdAt now txt hs (by omega) hd hlog htr] at h
            have h2 : Outcome.published (s.nextId + 1) = Outcome.published sid := h
            injection h2 with h3
            omega

/-- C3.  Along any sequence of pipeline requests from the initial state: the
questions log's entry ids are strictly increasing in list (append) order;
processing further requests only appends to the log — no entry is ever
deleted or mutated; and an entry published for a later accepted submission
carries an id strictly greater than every id already in the log, so of two
accepted submissions processed in temporal order the earlier one's entry
sits at the strictly smaller id. -/
theorem C3_log_monotonic (reqs more : List Request) (r : Request) (sid : Nat)
    (hpub : (followupCreate (runServer initState reqs) r.env r.sock r.items
      r.createdAt r.now).outcome = .published sid) :
    ((runServer initState reqs).questions.Pairwise (fun a b => a.id < b.id)) ∧
    (∃ tl, (runServer initState (reqs ++ more)).questions
      = (runServer initState reqs).questions ++ tl) ∧
    (∀ e ∈ (runServer initState reqs).questions, e.id < sid) := by
  have hinv := logInv_run initState reqs logInv_initState
  refine ⟨hinv.1, ?_, ?_⟩
  · rw [runServer_append_list]
    exact runServer_append_only _ more
  · intro e he
    have hid := published_id (runServer initState reqs) r.env r.sock r.items
      r.createdAt r.now sid hpub
    have := hinv.2 e he
    omega

/-- Witness for C3: two successful submissions; the second publishes id 4,
above the first entry's id 2. -/
theorem C3_log_monotonic_witness :
    (followupCreate (runServer initState [reqA]) reqB.env reqB.sock reqB.items
      reqB.createdAt reqB.now).outcome = .published 4 ∧
    (((runServer initState [reqA]).questions.Pairwise (fun a b => a.id < b.id)) ∧
      (∃ tl, (runServer initState ([reqA] ++ [reqB])).questions
        = (runServer initState [reqA]).questions ++ tl) ∧
      (∀ e ∈ (runServer initState [reqA]).questions, e.id < 4)) :=
  ⟨by decide, C3_log_monotonic [reqA] [reqB] reqB 4 (by decide)⟩

/-! ## Claim C1 (corrected): replay is a single bounded batch -/

/-- In a log with pairwise increasing ids, filtering for ids above the k-th
entry's id yields exactly the suffix after position k. -/
theorem filter_gt_aux (L : List Entry) (a k : Nat) (hk : k < L.length)
    (hp : L.Pairwise (fun x y => x.id < y.id)) (ha : (L.get ⟨k, hk⟩).id = a) :
    L.filter (fun e => decide (a < e.id)) = L.drop (k + 1) := by
  induction L generalizing k a with
  | nil => cases hk
  | cons e rest ih =>
    have hhead : ∀ b ∈ rest, e.id < b.id := (List.pairwise_cons.mp hp).1
    have htail : rest.Pairwise (fun x y => x.id < y.id) := (List.pairwise_cons.mp hp).2
    cases k with
    | zero =>
      have hae : a = e.id := ha.symm
      subst hae
      rw [List.filter_cons]
      rw [if_neg (by simp)]
      exact List.filter_eq_self.mpr fun b hb => decide_eq_true (hhead b hb)
    | succ k =>
      have hk' : k < rest.length := Nat.lt_of_succ_lt_succ hk
      have hget : (rest.get ⟨k, hk'⟩).id = a := ha
      have hmem : rest.get ⟨k, hk'⟩ ∈ rest := List.get_mem rest k hk'
      have hea : e.id < a := by
        rw [← hget]
        exact hhead _ hmem
      rw [List.filter_cons, if_neg (by simp; omega)]
      rw [List.drop_succ_cons]
      exact ih a k hk' htail hget

/-- C1 (amended).  The replay handler performs a single read of at most 100
entries: with `lastSeenId = null` it delivers the first `min(N, 100)`
entries in order, and with the id of the k-th entry it delivers entries
k+1 .. min(k+100, N) in order.  Whenever at most 100 entries remain this is
exactly entries k+1..N; the read is not repeated, so longer suffixes are
truncated at 100. -/
theorem C1_replay_batches (L : List Entry) (k : Nat)
    (hs : L.Pairwise (fun a b => a.id < b.id)) (hpos : ∀ e ∈ L, 0 < e.id)
    (hk : k < L.length) :
    requestReplay (stateWith L) none = (L.take 100).map entryEmit ∧
    requestReplay (stateWith L) (some ((L.get ⟨k, hk⟩).id))
      = ((L.drop (k + 1)).take 100).map entryEmit := by
  constructor
  · show ((L.filter fun e => decide ((none : Option Nat).getD 0 < e.id)).take 100).map _
      = (L.take 100).map entryEmit
    have hall : L.filter (fun e => decide ((none : Option Nat).getD 0 < e.id)) = L :=
      List.filter_eq_self.mpr fun b hb => decide_eq_true (hpos b hb)
    rw [hall]
    rfl
  · show ((L.filter fun e => decide ((some ((L.get ⟨k, hk⟩).id) : Option Nat).getD 0 < e.id)).take 100).map _
      = ((L.drop (k + 1)).take 100).map entryEmit
    rw [show ((some ((L.get ⟨k, hk⟩).id) : Option Nat).getD 0) = (L.get ⟨k, hk⟩).id from rfl]
    rw [filter_gt_aux L ((L.get ⟨k, hk⟩).id) k hk hs rfl]
    rfl

/-- Witness for C1 (amended) on a three-entry log, resuming after the 2nd
entry. -/
theorem C1_replay_batches_witness :
    (([⟨1, "a", 5⟩, ⟨2, "b", 6⟩, ⟨3, "c", 7⟩] : List Entry).Pairwise
      (fun a b => a.id < b.id)) ∧
    (∀ e ∈ ([⟨1, "a", 5⟩, ⟨2, "b", 6⟩, ⟨3, "c", 7⟩] : List Entry), 0 < e.id) ∧
    (requestReplay (stateWith [⟨1, "a", 5⟩, ⟨2, "b", 6⟩, ⟨3, "c", 7⟩]) none
        = (([⟨1, "a", 5⟩, ⟨2, "b", 6⟩, ⟨3, "c", 7⟩] : List Entry).take 100).map entryEmit ∧
      requestReplay (stateWith [⟨1, "a", 5⟩, ⟨2, "b", 6⟩, ⟨3, "c", 7⟩])
          (some ((([⟨1, "a", 5⟩, ⟨2, "b", 6⟩, ⟨3, "c", 7⟩] : List Entry).get
            ⟨1, by decide⟩).id))
        = ((([⟨1, "a", 5⟩, ⟨2, "b", 6⟩, ⟨3, "c", 7⟩] : List Entry).drop 2).take 100).map
            entryEmit) :=
  ⟨by decide, by decide,
    C1_replay_batches [⟨1, "a", 5⟩, ⟨2, "b", 6⟩, ⟨3, "c", 7⟩] 1
      (by decide) (by decide) (by decide)⟩

/-- C1 counterexample to the claim as stated.  A topic state with N = 101
appended entries: replay from `lastSeenId = null` delivers only 100 of them
— the single `COUNT: 100` read is not repeated until the log is
exhausted. -/
theorem C1_replay_counterexample :
    (requestReplay (stateWith (demoLog 101)) none).length = 100 ∧
    (demoLog 101).length = 101 ∧
    requestReplay (stateWith (demoLog 101)) none ≠ (demoLog 101).map entryEmit := by
  refine ⟨by decide, by decide, ?_⟩
  intro hcon
  have h1 : (requestReplay (stateWith (demoLog 101)) none).length
      = ((demoLog 101).map entryEmit).length := by rw [hcon]
  have h2 : (requestReplay (stateWith (demoLog 101)) none).length = 100 := by decide
  have h3 : ((demoLog 101).map entryEmit).length = 101 := by decide
  omega

/-! ## Claim C2 (corrected): replay order vs live events on reconnect -/

/-- C2 (amended).  Within the replay batch, entries are delivered in log
order, and on any schedule in which no live publish interleaves between the
reconnect and the batch emission the client receives exactly the entries
with id above `lastSeenId` (capped at 100), in order, appended to what it
already received.  The client, however, is subscribed to live broadcasts
throughout the replay window, so this holds only for such schedules. -/
theorem C2_replay_drain (qs : List Entry) (n : Nat) (l : Option Nat)
    (ds : List Delivery) (hs : qs.Pairwise (fun a b => a.id < b.id)) :
    sessRun ⟨qs, n, .idle, ds⟩ [.reconnect l, .readResolve, .emitReplay]
      = some ⟨qs, n, .idle,
          ds ++ (replayBatch qs l).map (fun e => ⟨.replayed, e.text, some e.id⟩)⟩ ∧
    (replayBatch qs l).Pairwise (fun a b => a.id < b.id) := by
  constructor
  · rfl
  · have hsub : (replayBatch qs l).Sublist qs := by
      have h1 : replayBatch qs l
          = (qs.filter fun e => decide (l.getD 0 < e.id)).take 100 := rfl
      rw [h1]
      exact (List.take_sublist 100 _).trans (List.filter_sublist qs)
    exact hs.sublist hsub

/-- Witness for C2 (amended) on a two-entry log resuming after id 1. -/
theorem C2_replay_drain_witness :
    ((demoLog 2).Pairwise (fun a b => a.id < b.id)) ∧
    (sessRun ⟨demoLog 2, 3, .idle, []⟩ [.reconnect (some 1), .readResolve, .emitReplay]
        = some ⟨demoLog 2, 3, .idle,
            [] ++ (replayBatch (demoLog 2) (some 1)).map
              (fun e => ⟨.replayed, e.text, some e.id⟩)⟩ ∧
      (replayBatch (demoLog 2) (some 1)).Pairwise (fun a b => a.id < b.id)) :=
  ⟨by decide, C2_replay_drain (demoLog 2) 3 (some 1) [] (by decide)⟩

/-- C2 counterexample to the claim as stated.  The consumer reconnects with
`lastSeenId = 5` while the log holds entries 1..7; while the replay read is
pending, another submission's pipeline completes (appending entry 8 and
broadcasting it to every connected socket, including this one).  The client
then receives the live entry 8 BEFORE the replayed entries 6 and 7 — and
receives 8 twice — so replayed entries are not all delivered before live
events published after the reconnect. -/
theorem C2_counterexample :
    sessRun c2Start c2Trace
      = some ⟨[⟨1, "q1", 0⟩, ⟨2, "q2", 0⟩, ⟨3, "q3", 0⟩, ⟨4, "q4", 0⟩,
               ⟨5, "q5", 0⟩, ⟨6, "q6", 0⟩, ⟨7, "q7", 0⟩, ⟨8, "q8", 0⟩], 9, .idle,
          [⟨.live, "q8", some 8⟩, ⟨.replayed, "q6", some 6⟩,
           ⟨.replayed, "q7", some 7⟩, ⟨.replayed, "q8", some 8⟩]⟩ ∧
    liveBeforeReplayed [⟨.live, "q8", some 8⟩, ⟨.replayed, "q6", some 6⟩,
      ⟨.replayed, "q7", some 7⟩, ⟨.replayed, "q8", some 8⟩] = true :=
  ⟨by decide, by decide⟩

end Miniapp
